import Mathlib

/-!
Shallow embedding of the vsphone-monitor repository
(src/vsphone_monitor.py and src/vsphone_simple.py), together with
theorems settling the specification claims about request signing,
body canonicalization, deep-link normalization, device recovery,
HTTP fallback policy, response-status checking, statistics
bookkeeping and stats-file persistence.

Strings manipulated character-wise by the Python code (strip,
startswith, substring membership) are modelled as `List Char`;
strings only concatenated and compared are modelled as `String`.
-/

namespace VSPhone

/-! ## Python string-operation helpers -/

/-- Whitespace characters removed by Python `str.strip()`
(space, tab, newline, carriage return, vertical tab, form feed). -/
def pySpace (c : Char) : Bool :=
  c = ' ' || c = '\t' || c = '\n' || c = '\r' || c = Char.ofNat 11 || c = Char.ofNat 12

/-- Python `str.lstrip()`. -/
def lstrip (l : List Char) : List Char := l.dropWhile pySpace

/-- Python `str.rstrip()`. -/
def rstrip (l : List Char) : List Char := (l.reverse.dropWhile pySpace).reverse

/-- Python `str.strip()`. -/
def pyStrip (l : List Char) : List Char := rstrip (lstrip l)

/-- Python `str.startswith`. -/
def startsWithL : List Char → List Char → Bool
  | [], _ => true
  | _ :: _, [] => false
  | a :: as, b :: bs => a == b && startsWithL as bs

/-- Python substring membership `needle in hay`. -/
def containsSub (n : List Char) : List Char → Bool
  | [] => startsWithL n []
  | c :: t => startsWithL n (c :: t) || containsSub n t

/-- Python `str.lower()` (ASCII part, which is all the code compares). -/
def lowerL (l : List Char) : List Char := l.map Char.toLower

/-! ## DeviceController (src/vsphone_monitor.py, class DeviceController) -/

/-- The deep-link template `https://www.roblox.com/share?code={code}&type=Server`
from `DeviceController.build_roblox_url`. -/
def robloxTemplate (code : List Char) : List Char :=
  "https://www.roblox.com/share?code=".toList ++ code ++ "&type=Server".toList

/-- Embeds `DeviceController.build_roblox_url` (src/vsphone_monitor.py lines 285-296):
`None`/empty input gives `None`; otherwise the input is stripped; an input
starting with `http` is returned verbatim; anything else is wrapped in the
share-URL template. -/
def build_roblox_url (s : Option (List Char)) : Option (List Char) :=
  match s with
  | none => none
  | some l =>
    if l = [] then none
    else
      let t := pyStrip l
      if startsWithL "http".toList t then some t
      else some (robloxTemplate t)

/-- Outcome of one `subprocess.run` adb invocation: it completed with some
stdout and return code, it raised `TimeoutExpired`, or it raised some other
exception. -/
inductive AdbOutcome where
  | completed (stdout : List Char) (returncode : Int)
  | timedOut
  | raised
deriving DecidableEq

/-- Embeds `DeviceController.connect_device` (lines 298-324): success iff the
lowercased stdout contains `connected` (or `already connected`); a timeout
or any exception yields `False`. -/
def connect_device (r : AdbOutcome) : Bool :=
  match r with
  | .completed out _ =>
      containsSub "connected".toList (lowerL out) ||
      containsSub "already connected".toList (lowerL out)
  | .timedOut => false
  | .raised => false

/-- Embeds `DeviceController.check_app_running` (lines 326-346): the app counts as
running iff the package name occurs in the `ps | grep` stdout; a timeout or
any exception yields `False`. -/
def check_app_running (pkg : List Char) (r : AdbOutcome) : Bool :=
  match r with
  | .completed out _ => containsSub pkg out
  | .timedOut => false
  | .raised => false

/-- Embeds `DeviceController.kill_app` (lines 348-369): success iff the
`am force-stop` subprocess completed with return code 0. -/
def kill_app (r : AdbOutcome) : Bool :=
  match r with
  | .completed _ rc => rc = 0
  | .timedOut => false
  | .raised => false

/-- The boolean result of the `am start` subprocess inside
`DeviceController.start_app` (lines 371-400): success iff it completed with
return code 0; timeouts and exceptions yield `False`. -/
def start_app_result (r : AdbOutcome) : Bool :=
  match r with
  | .completed _ rc => rc = 0
  | .timedOut => false
  | .raised => false

/-- Device-control commands issued over the adb channel (the observable
side effects of the recovery path). -/
inductive Event where
  | stop (ip pkg : List Char)
  | sleepE (seconds : Nat)
  | launch (ip pkg url : List Char)
deriving DecidableEq

/-- Embeds `DeviceController.start_app`: builds the deep link first and issues the
`am start` command only when a link was built. -/
def start_app_run (ip pkg url : List Char) (r : AdbOutcome) : List Event × Bool :=
  match build_roblox_url (some url) with
  | none => ([], false)
  | some link => ([.launch ip pkg link], start_app_result r)

/-- Embeds `DeviceController.restart_app` (lines 402-411): kill (result ignored),
sleep the delay, start; the returned flag is the start result. -/
def restart_app (ip pkg url : List Char) (delay : Nat)
    (killR startR : AdbOutcome) : List Event × Bool :=
  let s := start_app_run ip pkg url startR
  ([Event.stop ip pkg] ++ [Event.sleepE delay] ++ s.1, s.2)

/-- One configured app of a device together with this tick's adb outcomes
for its checking, stopping and launching commands. -/
structure AppCheck where
  package : List Char
  urlOrCode : List Char
  runR : AdbOutcome
  killR : AdbOutcome
  startR : AdbOutcome
deriving DecidableEq

/-- The per-app body of `VSPhoneMonitor.check_device_apps` (lines 576-622):
skip on missing package or link, query the running state, and on
NOT RUNNING run the restart path, counting one restart on success. -/
def checkOneApp (ip : List Char) (delay : Nat) (a : AppCheck) : List Event × Nat :=
  if a.package = [] then ([], 0)
  else if a.urlOrCode = [] then ([], 0)
  else if check_app_running a.package a.runR then ([], 0)
  else
    let r := restart_app ip a.package a.urlOrCode delay a.killR a.startR
    (r.1, if r.2 then 1 else 0)

/-- Embeds `VSPhoneMonitor.check_device_apps` (lines 563-622): nothing happens
without configured apps; an adb connect failure ends the device's tick; else
the apps are checked in order.  Returns the issued device commands and the
number of `total_restarts` increments. -/
def check_device_apps (ip : List Char) (delay : Nat) (connectR : AdbOutcome)
    (apps : List AppCheck) : List Event × Nat :=
  if apps = [] then ([], 0)
  else if connect_device connectR = false then ([], 0)
  else apps.foldl (fun acc a =>
    let r := checkOneApp ip delay a
    (acc.1 ++ r.1, acc.2 + r.2)) ([], 0)

/-- Embeds `monitoring_config.get('restart_delay', 5)`
(src/vsphone_monitor.py line 444). -/
def restart_delay_of (cfg : Option Nat) : Nat := cfg.getD 5

/-! ## JSON bodies and Python `json.dumps` -/

/-- Scalar JSON values appearing in the request bodies the scripts build
(string escaping is not needed: no key or value in the repository contains
characters requiring escapes). -/
inductive JVal where
  | jnum (n : Int)
  | jstr (s : String)
  | jbool (b : Bool)
deriving DecidableEq

/-- Serialization of one scalar, as `json.dumps` renders it. -/
def dumpJVal : JVal → String
  | .jnum n => toString n
  | .jstr s => "\"" ++ s ++ "\""
  | .jbool b => if b then "true" else "false"

/-- Embeds `json.dumps` of a dict, with the given item and key-value separators.
Python 3.7+ dicts preserve insertion order and `json.dumps` is called
without `sort_keys`, so the keys are emitted in supplied order. -/
def pyDumps (itemSep kvSep : String) (kvs : List (String × JVal)) : String :=
  "\x7b" ++ String.intercalate itemSep
    (kvs.map (fun p => "\"" ++ p.1 ++ "\"" ++ kvSep ++ dumpJVal p.2)) ++ "\x7d"

/-- Embeds `json.dumps(body)` with default separators `(', ', ': ')`
(src/vsphone_monitor.py line 93). -/
def dumpsMonitor (kvs : List (String × JVal)) : String := pyDumps ", " ": " kvs

/-- Embeds `json.dumps(body, separators=(',', ':'), ensure_ascii=False)`
(src/vsphone_simple.py line 68). -/
def dumpsSimple (kvs : List (String × JVal)) : String := pyDumps "," ":" kvs

/-- A request body as `_sign_request` receives it: a raw string (the
default is the empty string) or a dict. -/
inductive Body where
  | strB (s : String)
  | dictB (kvs : List (String × JVal))
deriving DecidableEq

/-- Python truth of `body == ""`. -/
def isEmptyBody : Body → Bool
  | .strB s => s == ""
  | .dictB _ => false

/-- The body-string computation of `VSPhoneAPI._sign_request`
(src/vsphone_monitor.py lines 89-93): a GET or an empty-string body hashes
the empty string; a dict body is serialized with `json.dumps` default
settings; any other body is used via `str(body)`. -/
def monitor_body_str (method : String) (body : Body) : String :=
  if method = "GET" || isEmptyBody body then ""
  else
    match body with
    | .dictB kvs => dumpsMonitor kvs
    | .strB s => s

/-- The body string of `VSPhoneAPI._make_request`
(src/vsphone_simple.py line 68). -/
def simple_body_str (kvs : List (String × JVal)) : String := dumpsSimple kvs

/-! ## Request signers -/

/-- The cryptographic primitives the signers are parameterized over:
`hmacD` is HMAC-SHA256 returning raw digest bytes, `hmacHex` the same with
hex encoding, `shaHex` is hex-encoded SHA-256.  Every structural theorem
below holds for all instantiations; witnesses instantiate `tagCtx`. -/
structure SignCtx where
  hmacD : String → String → String
  hmacHex : String → String → String
  shaHex : String → String

/-- A concrete (non-cryptographic) instantiation used to evaluate the
signers on closed inputs. -/
def tagCtx : SignCtx :=
  ⟨fun k m => "M(" ++ k ++ "," ++ m ++ ")",
   fun k m => "Mx(" ++ k ++ "," ++ m ++ ")",
   fun s => "H(" ++ s ++ ")"⟩

/-- Lexicographic comparison on char lists (the order `sorted` uses for
the ASCII header names involved). -/
def lexLe : List Char → List Char → Bool
  | [], _ => true
  | _ :: _, [] => false
  | a :: as, b :: bs => if a < b then true else if b < a then false else lexLe as bs

/-- Insertion into a sorted list of strings. -/
def insertSorted (x : String) : List String → List String
  | [] => [x]
  | y :: ys => if lexLe x.toList y.toList then x :: y :: ys else y :: insertSorted x ys

/-- Python `sorted` on a list of strings. -/
def sortStrs : List String → List String
  | [] => []
  | x :: xs => insertSorted x (sortStrs xs)

/-- All intermediate values of `VSPhoneAPI._sign_request`
(src/vsphone_monitor.py lines 79-152). -/
structure MonitorSignResult where
  contentSha256 : String
  canonicalHeaderStr : String
  signedHeaders : String
  canonicalRequest : String
  credentialScope : String
  stringToSign : String
  kSigning : String
  signature : String
  authorization : String
deriving DecidableEq

/-- Embeds `VSPhoneAPI._sign_request` of src/vsphone_monitor.py: canonical
headers, canonical request, scope `date/vsphone/sdk_request`, key chain
`HMAC(HMAC(HMAC("SDK"+secret, date), "vsphone"), "sdk_request")` and the
`SDK-HMAC-SHA256` authorization header. -/
def monitor_sign_request (ctx : SignCtx) (api_key api_secret : String)
    (method uri query_params : String) (body : Body)
    (x_date date_stamp : String) : MonitorSignResult :=
  let body_str := monitor_body_str method body
  let content_sha256 := ctx.shaHex body_str
  let canonical_headers : List (String × String) :=
    [("content-type", "application/json"), ("host", "api.vsphone.com"),
     ("x-content-sha256", content_sha256), ("x-date", x_date)]
  let canonical_header_str :=
    String.intercalate "\n" (canonical_headers.map (fun p => p.1 ++ ":" ++ p.2))
  let signed_headers :=
    String.intercalate ";" (sortStrs (canonical_headers.map (·.1)))
  let canonical_request :=
    method ++ "\n" ++ uri ++ "\n" ++ query_params ++ "\n" ++
      canonical_header_str ++ "\n\n" ++ signed_headers ++ "\n" ++ content_sha256
  let algorithm := "SDK-HMAC-SHA256"
  let credential_scope := date_stamp ++ "/vsphone/sdk_request"
  let canonical_request_hash := ctx.shaHex canonical_request
  let string_to_sign :=
    algorithm ++ "\n" ++ x_date ++ "\n" ++ credential_scope ++ "\n" ++ canonical_request_hash
  let k_date := ctx.hmacD ("SDK" ++ api_secret) date_stamp
  let k_service := ctx.hmacD k_date "vsphone"
  let k_signing := ctx.hmacD k_service "sdk_request"
  let signature := ctx.hmacHex k_signing string_to_sign
  let authorization :=
    algorithm ++ " Credential=" ++ api_key ++ "/" ++ credential_scope ++
      ", SignedHeaders=" ++ signed_headers ++ ", Signature=" ++ signature
  ⟨content_sha256, canonical_header_str, signed_headers, canonical_request,
   credential_scope, string_to_sign, k_signing, signature, authorization⟩

/-- The signing-relevant values of `VSPhoneAPI._sign_request` together with
the authorization header built in `_make_request`
(src/vsphone_simple.py lines 24-87). -/
structure SimpleSignResult where
  credential : String
  stringToSign : String
  kSigning : String
  signature : String
  authorization : String
deriving DecidableEq

/-- The signer of src/vsphone_simple.py: scope
`shortDate/armcloud-paas/request`, key chain
`HMAC(HMAC(HMAC(secret, shortDate), "armcloud-paas"), "request")` and the
`HMAC-SHA256` authorization header. -/
def simple_sign (ctx : SignCtx) (access_key secret_key : String)
    (x_date body_str : String) : SimpleSignResult :=
  let x_content_sha256 := ctx.shaHex body_str
  let canonical :=
    "host:api.vsphone.com\nx-date:" ++ x_date ++
      "\ncontent-type:application/json;charset=UTF-8" ++
      "\nsignedHeaders:content-type;host;x-content-sha256;x-date" ++
      "\nx-content-sha256:" ++ x_content_sha256
  let short_date := String.mk (x_date.toList.take 8)
  let credential := short_date ++ "/armcloud-paas/request"
  let string_to_sign :=
    "HMAC-SHA256\n" ++ x_date ++ "\n" ++ credential ++ "\n" ++ ctx.shaHex canonical
  let k_date := ctx.hmacD secret_key short_date
  let k_service := ctx.hmacD k_date "armcloud-paas"
  let k_signing := ctx.hmacD k_service "request"
  let signature := ctx.hmacHex k_signing string_to_sign
  let authorization :=
    "HMAC-SHA256 Credential=" ++ access_key ++ "/" ++ short_date ++
      "/armcloud-paas/request, " ++
      "SignedHeaders=content-type;host;x-content-sha256;x-date, " ++
      "Signature=" ++ signature
  ⟨credential, string_to_sign, k_signing, signature, authorization⟩

/-- Modelled from the spec: the credential-scope formula of §4.1 step 6,
`dateOnly(now) + "/" + serviceName + "/request"`, for comparison with the
scope the code actually builds. -/
def specCredentialScope (dateOnly serviceName : String) : String :=
  dateOnly ++ "/" ++ serviceName ++ "/request"

/-! ## ControlPlaneClient: VSPhoneAPI.get_devices (src/vsphone_monitor.py) -/

/-- The application-level envelope of a parsed JSON response (the fields
the scripts consult). -/
structure ApiResp where
  code : Int
  msg : String
deriving DecidableEq

/-- Outcome of one HTTP request: a response with transport status and a
parsed body (`none` models `response.json()` raising on malformed JSON),
or the request itself raising (timeout, connection error). -/
inductive HttpResult where
  | resp (status : Nat) (body : Option ApiResp)
  | reqFailed
deriving DecidableEq

/-- One try-block of `get_devices` (src/vsphone_monitor.py lines 154-240):
the parsed body is returned exactly when the transport status is 200 and
the body parses; every other outcome (any non-200 status — 405 or not —,
malformed JSON, exception) falls through to the next method. -/
def handle_attempt (r : HttpResult) : Option ApiResp :=
  match r with
  | .resp status (some b) => if status = 200 then some b else none
  | .resp _ none => none
  | .reqFailed => none

/-- Method 1 of `get_devices`: POST with the empty JSON dict body. -/
def attemptPOSTjson : String × Body := ("POST", .dictB [])

/-- Method 2 of `get_devices`: GET with empty body. -/
def attemptGET : String × Body := ("GET", .strB "")

/-- Method 3 of `get_devices`: POST with explicit empty-string body. -/
def attemptPOSTempty : String × Body := ("POST", .strB "")

/-- Embeds `VSPhoneAPI.get_devices` (src/vsphone_monitor.py lines 154-240), as a
function of the outcomes the three attempts would produce; returns the
result and the list of attempts actually issued. -/
def get_devices (r1 r2 r3 : HttpResult) : Option ApiResp × List (String × Body) :=
  match handle_attempt r1 with
  | some d => (some d, [attemptPOSTjson])
  | none =>
    match handle_attempt r2 with
    | some d => (some d, [attemptPOSTjson, attemptGET])
    | none =>
      match handle_attempt r3 with
      | some d => (some d, [attemptPOSTjson, attemptGET, attemptPOSTempty])
      | none => (none, [attemptPOSTjson, attemptGET, attemptPOSTempty])

/-! ## ControlPlaneClient: VSPhoneAPI._make_request (src/vsphone_simple.py) -/

/-- A parsed response of the simple client: app-level `code`, `msg` and the
optional `data` payload (opaque here). -/
structure SimpleResp where
  code : Int
  msg : String
  data : Option String
deriving DecidableEq

/-- Embeds `VSPhoneAPI._make_request` (src/vsphone_simple.py lines 89-105) after
the HTTP call: first component is the returned payload (`result.get('data')`
only when transport status is 200 and app-level `code` is 200), second is
the embedded application error message surfaced for logging, present
exactly in the transport-OK/app-error case. -/
def simple_make_request (status : Nat) (parsed : Option SimpleResp) :
    Option String × Option String :=
  if status = 200 then
    match parsed with
    | some r => if r.code = 200 then (r.data, none) else (none, some r.msg)
    | none => (none, none)
  else (none, none)

/-! ## StatsStore (src/vsphone_monitor.py lines 452-474, 650-653) -/

/-- The statistics record the monitor keeps (`load_stats` fallback dict). -/
structure Stats where
  total_checks : Nat
  total_restarts : Nat
  last_check : Option String
  started_at : String
deriving DecidableEq

/-- The fresh record `load_stats` builds when the file is missing or
unreadable (lines 461-466). -/
def fresh_stats (startedAt : String) : Stats :=
  ⟨0, 0, none, startedAt⟩

/-- Embeds `VSPhoneMonitor.load_stats` (lines 452-466): `none` models a missing
file, `some none` a file whose JSON load raised; both fall back to fresh
stats. -/
def load_stats (file : Option (Option Stats)) (startedAt : String) : Stats :=
  match file with
  | some (some s) => s
  | _ => fresh_stats startedAt

/-- The stats mutation of one tick of `monitor_loop` (lines 650-652)
combined with the `total_restarts` increments accumulated by
`check_device_apps` during the tick (line 608). -/
def tick_update (s : Stats) (restarts : Nat) (now : String) : Stats :=
  { s with
    total_restarts := s.total_restarts + restarts,
    total_checks := s.total_checks + 1,
    last_check := some now }

/-- Iterating `tick_update` over a sequence of ticks, each carrying its
restart count and timestamp. -/
def run_ticks (s : Stats) : List (Nat × String) → Stats
  | [] => s
  | t :: ts => run_ticks (tick_update s t.1 t.2) ts

/-- JSON values of the persisted stats object. -/
inductive SVal where
  | num (n : Nat)
  | str (s : String)
  | nullV
  | mapV (m : List (String × Nat))
deriving DecidableEq

/-- The JSON object `save_stats` writes (`json.dump(self.stats, ...)`,
lines 468-474): exactly the four scalar fields of the stats dict. -/
def save_stats_obj (s : Stats) : List (String × SVal) :=
  [("total_checks", .num s.total_checks),
   ("total_restarts", .num s.total_restarts),
   ("last_check", match s.last_check with | some t => .str t | none => .nullV),
   ("started_at", .str s.started_at)]

/-- Modelled from the spec: `perDeviceRestartCounts` is a map
deviceId→count inside the persisted Stats record (§3); its total is the sum
of the counts of every map-valued field of the persisted object (zero when
no such field exists). -/
def perDeviceRestartSum (obj : List (String × SVal)) : Nat :=
  (obj.map (fun p =>
    match p.2 with
    | .mapV m => (m.map (·.2)).sum
    | _ => 0)).sum

/-! ## Stats-file write semantics (src/vsphone_monitor.py lines 468-474) -/

/-- Embeds `os.path.join(LOG_DIR, "monitor_stats.json")` (line 41). -/
def statsFilePath : String := "logs/monitor_stats.json"

/-- File-system operations a save routine can perform. -/
inductive FileOp where
  | openTrunc (path : String)
  | writeAll (path : String) (content : String)
  | closeF (path : String)
  | renameF (src dst : String)
deriving DecidableEq

/-- The operations `save_stats` performs: `open(STATS_FILE, 'w')`
truncates the stats file in place, `json.dump` writes the snapshot, the
`with` block closes.  No temporary file, no rename. -/
def save_stats_ops (content : String) : List FileOp :=
  [.openTrunc statsFilePath, .writeAll statsFilePath content, .closeF statsFilePath]

/-- Effect of one operation on the file system (paths to contents). -/
def applyOp (fs : String → Option String) : FileOp → String → Option String
  | .openTrunc p, q => if q = p then some "" else fs q
  | .writeAll p c, q => if q = p then some (((fs p).getD "") ++ c) else fs q
  | .closeF _, q => fs q
  | .renameF src dst, q => if q = dst then fs src else if q = src then none else fs q

/-- Running a sequence of file operations; a crash mid-save is a run of a
proper prefix. -/
def runOps (fs : String → Option String) (ops : List FileOp) : String → Option String :=
  ops.foldl applyOp fs

/-- Whether an operation is a rename (the atomic-replace step the spec
requires). -/
def isRenameOp : FileOp → Bool
  | .renameF _ _ => true
  | _ => false

/-- A file system holding a previous stats snapshot, for the closed
counterexample below. -/
def fsOld : String → Option String :=
  fun q => if q = statsFilePath then some "old-snapshot" else none

/-- Modelled from the spec: the tail of a URI-scheme test — RFC 3986
scheme characters up to `:` followed by `//`. -/
def schemeTail : List Char → Bool
  | [] => false
  | c :: t =>
    if c = ':' then startsWithL "//".toList t
    else (c.isAlphanum || c = '+' || c = '-' || c = '.') && schemeTail t

/-- Modelled from the spec: "launchReference already begins with a URI
scheme" (§4.3) — a letter, then scheme characters, then `://`. -/
def startsWithUriScheme : List Char → Bool
  | [] => false
  | c :: t => c.isAlpha && schemeTail t

/-! ## Helper lemmas on Python strip -/

theorem length_dropWhile_le (p : Char → Bool) (l : List Char) :
    (l.dropWhile p).length ≤ l.length := by
  induction l with
  | nil => simp
  | cons a t ih =>
    cases hpa : p a
    · simp [List.dropWhile_cons, hpa]
    · simp only [List.dropWhile_cons, hpa, if_pos]
      exact Nat.le_trans ih (Nat.le_succ _)

theorem dropWhile_dropWhile (p : Char → Bool) (l : List Char) :
    (l.dropWhile p).dropWhile p = l.dropWhile p := by
  induction l with
  | nil => rfl
  | cons a t ih =>
    cases hpa : p a
    · simp [List.dropWhile_cons, hpa]
    · simp [List.dropWhile_cons, hpa, ih]

theorem lstrip_lstrip (l : List Char) : lstrip (lstrip l) = lstrip l :=
  dropWhile_dropWhile pySpace l

theorem rstrip_rstrip (l : List Char) : rstrip (rstrip l) = rstrip l := by
  unfold rstrip
  rw [List.reverse_reverse, dropWhile_dropWhile]

theorem lstrip_rstrip (m : List Char) (hm : lstrip m = m) :
    lstrip (rstrip m) = rstrip m := by
  match m with
  | [] => rfl
  | a :: t =>
    have hpa : pySpace a = false := by
      cases hpa : pySpace a
      · rfl
      · exfalso
        unfold lstrip at hm
        rw [List.dropWhile_cons_of_pos (by simp [hpa])] at hm
        have hle := length_dropWhile_le pySpace t
        rw [hm] at hle
        simp at hle
    unfold rstrip
    rw [List.reverse_cons, List.dropWhile_append]
    by_cases he : (t.reverse.dropWhile pySpace).isEmpty
    · rw [if_pos he]
      show lstrip ([a].dropWhile pySpace).reverse = _
      rw [List.dropWhile_cons_of_neg (by simp [hpa])]
      show lstrip [a] = [a]
      unfold lstrip
      rw [List.dropWhile_cons_of_neg (by simp [hpa])]
    · rw [if_neg he, List.reverse_append]
      show lstrip ([a].reverse ++ (t.reverse.dropWhile pySpace).reverse) = _
      rw [show ([a] : List Char).reverse = [a] from rfl, List.cons_append]
      unfold lstrip
      rw [List.dropWhile_cons_of_neg (by simp [hpa])]

theorem pyStrip_idem (l : List Char) : pyStrip (pyStrip l) = pyStrip l := by
  unfold pyStrip
  rw [lstrip_rstrip (lstrip l) (lstrip_lstrip l), rstrip_rstrip]

theorem lstrip_template (t : List Char) : lstrip (robloxTemplate t) = robloxTemplate t := by
  rw [show robloxTemplate t =
    'h' :: ("ttps://www.roblox.com/share?code=".toList ++ t ++ "&type=Server".toList)
      from rfl]
  unfold lstrip
  rw [List.dropWhile_cons_of_neg (by decide)]

theorem rstrip_template (t : List Char) : rstrip (robloxTemplate t) = robloxTemplate t := by
  have key : (robloxTemplate t).reverse.dropWhile pySpace = (robloxTemplate t).reverse := by
    rw [robloxTemplate, List.reverse_append, List.reverse_append]
    rw [show ("&type=Server".toList).reverse = 'r' :: "evreS=epyt&".toList from by decide]
    rw [List.cons_append]
    exact List.dropWhile_cons_of_neg (by decide)
  unfold rstrip
  rw [key, List.reverse_reverse]

theorem pyStrip_template (t : List Char) :
    pyStrip (robloxTemplate t) = robloxTemplate t := by
  unfold pyStrip
  rw [lstrip_template, rstrip_template]

theorem http_startsWith_template (t : List Char) :
    startsWithL "http".toList (robloxTemplate t) = true := rfl

theorem http_lit_startsWith_template (t : List Char) :
    startsWithL ['h', 't', 't', 'p'] (robloxTemplate t) = true := rfl

theorem template_ne_nil (t : List Char) : robloxTemplate t ≠ [] := by
  rw [show robloxTemplate t =
    'h' :: ("ttps://www.roblox.com/share?code=".toList ++ t ++ "&type=Server".toList)
      from rfl]
  exact List.cons_ne_nil _ _

theorem startsWith_http_ne_nil (t : List Char)
    (h : startsWithL "http".toList t = true) : t ≠ [] := by
  intro hnil
  subst hnil
  exact absurd h (by decide)

/-! ## Claim C4 — link normalization -/

/-- C4 counterexample: `ftp://example.com` begins with a URI scheme, yet
`build_roblox_url` does not return it verbatim — it only special-cases
inputs starting with `http` and wraps everything else in the share
template. -/
theorem c4_scheme_counterexample :
    startsWithUriScheme "ftp://example.com".toList = true ∧
    build_roblox_url (some "ftp://example.com".toList) ≠
      some "ftp://example.com".toList := by
  exact ⟨by decide, by decide⟩

/-- C4 (amended): normalization is idempotent for every launchReference;
an input starting with the literal `http` (not an arbitrary URI scheme) is
returned stripped-verbatim, and any other non-empty input is wrapped into
the canonical deep-link template around its stripped text. -/
theorem c4_normalize :
    (∀ s, build_roblox_url (build_roblox_url s) = build_roblox_url s) ∧
    (∀ l, l ≠ [] → startsWithL "http".toList (pyStrip l) = true →
      build_roblox_url (some l) = some (pyStrip l)) ∧
    (∀ l, l ≠ [] → startsWithL "http".toList (pyStrip l) = false →
      build_roblox_url (some l) = some (robloxTemplate (pyStrip l))) := by
  refine ⟨?_, ?_, ?_⟩
  · intro s
    match s with
    | none => rfl
    | some l =>
      by_cases hl : l = []
      · simp [build_roblox_url, hl]
      · cases hp : startsWithL "http".toList (pyStrip l)
        · have hp' : startsWithL ['h', 't', 't', 'p'] (pyStrip l) = false := hp
          have h1 : build_roblox_url (some l) = some (robloxTemplate (pyStrip l)) := by
            simp [build_roblox_url, hl, hp']
          rw [h1]
          simp [build_roblox_url, template_ne_nil, pyStrip_template,
            http_lit_startsWith_template]
        · have hp' : startsWithL ['h', 't', 't', 'p'] (pyStrip l) = true := hp
          have h1 : build_roblox_url (some l) = some (pyStrip l) := by
            simp [build_roblox_url, hl, hp']
          rw [h1]
          have hne : pyStrip l ≠ [] := startsWith_http_ne_nil _ hp
          simp [build_roblox_url, hne, pyStrip_idem, hp']
  · intro l hl hp
    have hp' : startsWithL ['h', 't', 't', 'p'] (pyStrip l) = true := hp
    simp [build_roblox_url, hl, hp']
  · intro l hl hp
    have hp' : startsWithL ['h', 't', 't', 'p'] (pyStrip l) = false := hp
    simp [build_roblox_url, hl, hp']

/-- Closed witness for the amended C4 theorem. -/
theorem c4_normalize_witness :
    build_roblox_url (build_roblox_url (some "abc123".toList)) =
      build_roblox_url (some "abc123".toList) ∧
    build_roblox_url (some "https://www.roblox.com/games/123".toList) =
      some (pyStrip "https://www.roblox.com/games/123".toList) ∧
    build_roblox_url (some "abc123".toList) =
      some (robloxTemplate (pyStrip "abc123".toList)) :=
  ⟨c4_normalize.1 _,
   c4_normalize.2.1 _ (by decide) (by decide),
   c4_normalize.2.2 _ (by decide) (by decide)⟩

/-! ## Claim C3 — restart sequence -/

/-- C3: with the device connected, a configured app whose running check is
negative and whose launch succeeds gets exactly stop, sleep(delay),
launch(normalized link), and the tick counts exactly one restart; the
configured restart delay defaults to 5. -/
theorem c3_restart_sequence (ip : List Char) (delay : Nat) (cr : AdbOutcome)
    (a : AppCheck) (link : List Char)
    (hc : connect_device cr = true)
    (hp : a.package ≠ [])
    (hrun : check_app_running a.package a.runR = false)
    (hstart : start_app_result a.startR = true)
    (hB : build_roblox_url (some a.urlOrCode) = some link) :
    check_device_apps ip delay cr [a] =
      ([.stop ip a.package, .sleepE delay, .launch ip a.package link], 1) ∧
    restart_delay_of none = 5 := by
  have hu : a.urlOrCode ≠ [] := by
    intro h
    rw [h] at hB
    simp [build_roblox_url] at hB
  refine ⟨?_, rfl⟩
  simp [check_device_apps, hc, checkOneApp, hp, hu, hrun, restart_app,
    start_app_run, hB, hstart]

/-- Closed witness for C3: a concrete not-running app is stopped, waited
on and relaunched with the template link, counting one restart. -/
theorem c3_restart_sequence_witness :
    check_device_apps "10.0.0.2".toList 5
      (.completed "connected to 10.0.0.2:5555".toList 0)
      [⟨"com.roblox.client".toList, "abc123".toList,
        .completed [] 0, .completed [] 0, .completed [] 0⟩] =
      ([.stop "10.0.0.2".toList "com.roblox.client".toList,
        .sleepE 5,
        .launch "10.0.0.2".toList "com.roblox.client".toList
          (robloxTemplate "abc123".toList)], 1) ∧
    restart_delay_of none = 5 :=
  c3_restart_sequence _ _ _ _ _ (by decide) (by decide) (by decide) (by decide)
    (by decide)

/-! ## Claim C7 — connect failure is terminal for the device's tick -/

/-- C7: when the adb connect fails, no stop or launch command is issued
for any app of the device this tick and the restart counter is unchanged
(a zero-restart tick leaves `total_restarts` as it was). -/
theorem c7_connect_failure :
    (∀ (ip : List Char) (delay : Nat) (cr : AdbOutcome) (apps : List AppCheck),
      connect_device cr = false → check_device_apps ip delay cr apps = ([], 0)) ∧
    (∀ (s : Stats) (now : String),
      (tick_update s 0 now).total_restarts = s.total_restarts) := by
  constructor
  · intro ip delay cr apps hc
    unfold check_device_apps
    by_cases ha : apps = []
    · simp [ha]
    · simp [ha, hc]
  · intro s now
    simp [tick_update]

/-- Closed witness for C7: a timed-out connect yields no events and no
restarts. -/
theorem c7_connect_failure_witness :
    check_device_apps "10.0.0.2".toList 5 .timedOut
      [⟨"com.roblox.client".toList, "abc123".toList, .timedOut, .timedOut,
        .timedOut⟩] = ([], 0) ∧
    (tick_update (fresh_stats "t0") 0 "t1").total_restarts =
      (fresh_stats "t0").total_restarts :=
  ⟨c7_connect_failure.1 _ _ _ _ (by decide), c7_connect_failure.2 _ _⟩

/-! ## Claim C10 — device-control totality and timeout coercion -/

/-- C10: every device-control operation returns a boolean, with timeouts
and exceptions coerced to `false`; a timed-out running check is
indistinguishable from the app genuinely not running, so the caller
proceeds into the stop-and-launch restart path. -/
theorem c10_total_boolean :
    connect_device .timedOut = false ∧
    connect_device .raised = false ∧
    (∀ pkg, check_app_running pkg .timedOut = false ∧
      check_app_running pkg .raised = false) ∧
    kill_app .timedOut = false ∧
    kill_app .raised = false ∧
    start_app_result .timedOut = false ∧
    start_app_result .raised = false ∧
    (∀ pkg, pkg ≠ [] →
      check_app_running pkg .timedOut = check_app_running pkg (.completed [] 0)) ∧
    (∀ (ip : List Char) (delay : Nat) (cr : AdbOutcome) (a : AppCheck)
        (link : List Char),
      connect_device cr = true → a.package ≠ [] → a.runR = .timedOut →
      build_roblox_url (some a.urlOrCode) = some link →
      (check_device_apps ip delay cr [a]).1 =
        [.stop ip a.package, .sleepE delay, .launch ip a.package link]) := by
  refine ⟨rfl, rfl, fun pkg => ⟨rfl, rfl⟩, rfl, rfl, rfl, rfl, ?_, ?_⟩
  · intro pkg hp
    match pkg with
    | [] => exact absurd rfl hp
    | c :: t => rfl
  · intro ip delay cr a link hc hp hr hB
    have hu : a.urlOrCode ≠ [] := by
      intro h
      rw [h] at hB
      simp [build_roblox_url] at hB
    simp [check_device_apps, hc, checkOneApp, hp, hu, hr, check_app_running,
      restart_app, start_app_run, hB]

/-- Closed witness for C10: a concrete timed-out check is treated as
not-running and triggers the full restart sequence. -/
theorem c10_total_boolean_witness :
    check_app_running "com.roblox.client".toList .timedOut =
      check_app_running "com.roblox.client".toList (.completed [] 0) ∧
    (check_device_apps "10.0.0.2".toList 5 (.completed "connected".toList 0)
      [⟨"com.roblox.client".toList, "abc123".toList, .timedOut, .timedOut,
        .timedOut⟩]).1 =
      [.stop "10.0.0.2".toList "com.roblox.client".toList,
       .sleepE 5,
       .launch "10.0.0.2".toList "com.roblox.client".toList
         (robloxTemplate "abc123".toList)] :=
  ⟨c10_total_boolean.2.2.2.2.2.2.2.1 _ (by decide),
   c10_total_boolean.2.2.2.2.2.2.2.2 _ _ _ _ _ (by decide) (by decide) rfl
     (by decide)⟩

/-! ## Claim C1 — signer credential scope and key chain -/

/-- C1 counterexample: the monitor signer's credential scope and final
key-chain stage use the literal `sdk_request`, not the claimed fixed
literal `request`. -/
theorem c1_scope_counterexample :
    (monitor_sign_request tagCtx "AK" "SK" "POST" "/api/v1/phone/list" ""
      (.dictB []) "20260101T000000Z" "20260101").credentialScope ≠
      specCredentialScope "20260101" "vsphone" ∧
    (monitor_sign_request tagCtx "AK" "SK" "POST" "/api/v1/phone/list" ""
      (.dictB []) "20260101T000000Z" "20260101").kSigning ≠
      tagCtx.hmacD
        (tagCtx.hmacD (tagCtx.hmacD ("SDK" ++ "SK") "20260101") "vsphone")
        "request" :=
  ⟨by decide, by decide⟩

/-- C1 (amended): each variant uses its own fixed suffix literal — the
monitor signer builds scope `date/vsphone/sdk_request` with key chain
`HMAC(HMAC(HMAC("SDK"+secret, date), "vsphone"), "sdk_request")`; the
simple signer builds scope `shortDate/armcloud-paas/request` with key
chain `HMAC(HMAC(HMAC(secret, shortDate), "armcloud-paas"), "request")`;
both emit `algorithmName Credential=accessKey/scope,
SignedHeaders=names, Signature=signature`. -/
theorem c1_sign_chain :
    (∀ (ctx : SignCtx) (ak sk m u q : String) (b : Body) (xd ds : String),
      (monitor_sign_request ctx ak sk m u q b xd ds).credentialScope =
        ds ++ "/vsphone/sdk_request" ∧
      (monitor_sign_request ctx ak sk m u q b xd ds).kSigning =
        ctx.hmacD (ctx.hmacD (ctx.hmacD ("SDK" ++ sk) ds) "vsphone") "sdk_request" ∧
      (monitor_sign_request ctx ak sk m u q b xd ds).signature =
        ctx.hmacHex (monitor_sign_request ctx ak sk m u q b xd ds).kSigning
          (monitor_sign_request ctx ak sk m u q b xd ds).stringToSign ∧
      (monitor_sign_request ctx ak sk m u q b xd ds).authorization =
        "SDK-HMAC-SHA256" ++ " Credential=" ++ ak ++ "/" ++
          (monitor_sign_request ctx ak sk m u q b xd ds).credentialScope ++
          ", SignedHeaders=" ++
          (monitor_sign_request ctx ak sk m u q b xd ds).signedHeaders ++
          ", Signature=" ++
          (monitor_sign_request ctx ak sk m u q b xd ds).signature ∧
      (monitor_sign_request ctx ak sk m u q b xd ds).signedHeaders =
        "content-type;host;x-content-sha256;x-date") ∧
    (∀ (ctx : SignCtx) (ak sk xd bs : String),
      (simple_sign ctx ak sk xd bs).credential =
        String.mk (xd.toList.take 8) ++ "/armcloud-paas/request" ∧
      (simple_sign ctx ak sk xd bs).kSigning =
        ctx.hmacD (ctx.hmacD (ctx.hmacD sk (String.mk (xd.toList.take 8)))
          "armcloud-paas") "request" ∧
      (simple_sign ctx ak sk xd bs).authorization =
        "HMAC-SHA256 Credential=" ++ ak ++ "/" ++ String.mk (xd.toList.take 8) ++
          "/armcloud-paas/request, " ++
          "SignedHeaders=content-type;host;x-content-sha256;x-date, " ++
          "Signature=" ++ (simple_sign ctx ak sk xd bs).signature) :=
  ⟨fun ctx ak sk m u q b xd ds => ⟨rfl, rfl, rfl, rfl, rfl⟩,
   fun ctx ak sk xd bs => ⟨rfl, rfl, rfl⟩⟩

/-! ## Claim C2 — body canonicalization -/

/-- C2 counterexample: two structurally equal dict bodies (a permutation
of the same pairs) serialize to different bytes, and the monitor's
serialization keeps `json.dumps` default separators, i.e. whitespace. -/
theorem c2_order_counterexample :
    List.Perm [("a", JVal.jnum 1), ("b", JVal.jnum 2)]
      [("b", JVal.jnum 2), ("a", JVal.jnum 1)] ∧
    dumpsMonitor [("a", JVal.jnum 1), ("b", JVal.jnum 2)] ≠
      dumpsMonitor [("b", JVal.jnum 2), ("a", JVal.jnum 1)] ∧
    monitor_body_str "POST" (.dictB [("a", JVal.jnum 1), ("b", JVal.jnum 2)]) =
      "\x7b\"a\": 1, \"b\": 2\x7d" :=
  ⟨List.Perm.swap _ _ _, by decide, by decide⟩

/-- C2 (amended): a GET or empty-string body canonicalizes to the empty
string; a dict body serializes in supplied key order — with spaced default
separators in the monitor and compact separators in the simple client —
so key-reordered but structurally equal bodies may produce different
bytes and digests. -/
theorem c2_canonical_body :
    (∀ b, monitor_body_str "GET" b = "") ∧
    (∀ m, monitor_body_str m (.strB "") = "") ∧
    (∀ kvs, monitor_body_str "POST" (.dictB kvs) = pyDumps ", " ": " kvs) ∧
    (∀ kvs, simple_body_str kvs = pyDumps "," ":" kvs) := by
  refine ⟨fun b => rfl, fun m => ?_, fun kvs => rfl, fun kvs => rfl⟩
  simp [monitor_body_str, isEmptyBody]

/-! ## Claim C5 — device-listing retry policy -/

/-- C5 counterexample: after a 500 response — not a method-not-allowed —
the client still issues a second request with the alternate verb. -/
theorem c5_retry_counterexample :
    get_devices (.resp 500 (some ⟨500, "server error"⟩))
      (.resp 200 (some ⟨200, "ok"⟩)) .reqFailed =
      (some ⟨200, "ok"⟩, [attemptPOSTjson, attemptGET]) ∧
    (500 : Nat) ≠ 405 ∧
    [attemptPOSTjson, attemptGET].length = 2 :=
  ⟨by decide, by decide, rfl⟩

/-- C5 (amended): `get_devices` cascades through a fixed plan of at most
three attempts — POST with JSON body, GET, POST with empty-string body —
advancing to the next on any failure (any non-200 status, malformed JSON
or exception, not only 405), returning the first success and `none` after
all three fail. -/
theorem c5_attempt_cascade (r1 r2 r3 : HttpResult) :
    (∀ d, handle_attempt r1 = some d →
      get_devices r1 r2 r3 = (some d, [attemptPOSTjson])) ∧
    (∀ d, handle_attempt r1 = none → handle_attempt r2 = some d →
      get_devices r1 r2 r3 = (some d, [attemptPOSTjson, attemptGET])) ∧
    (∀ d, handle_attempt r1 = none → handle_attempt r2 = none →
      handle_attempt r3 = some d →
      get_devices r1 r2 r3 =
        (some d, [attemptPOSTjson, attemptGET, attemptPOSTempty])) ∧
    (handle_attempt r1 = none → handle_attempt r2 = none →
      handle_attempt r3 = none →
      get_devices r1 r2 r3 =
        (none, [attemptPOSTjson, attemptGET, attemptPOSTempty])) ∧
    (get_devices r1 r2 r3).2.length ≤ 3 := by
  refine ⟨?_, ?_, ?_, ?_, ?_⟩
  · intro d h1
    simp [get_devices, h1]
  · intro d h1 h2
    simp [get_devices, h1, h2]
  · intro d h1 h2 h3
    simp [get_devices, h1, h2, h3]
  · intro h1 h2 h3
    simp [get_devices, h1, h2, h3]
  · cases h1 : handle_attempt r1
    · cases h2 : handle_attempt r2
      · cases h3 : handle_attempt r3 <;> simp [get_devices, h1, h2, h3]
      · simp [get_devices, h1, h2]
    · simp [get_devices, h1]

/-- Closed witness for C5 (amended): a 503 first attempt falls through to
a successful GET. -/
theorem c5_attempt_cascade_witness :
    get_devices (.resp 503 none) (.resp 200 (some ⟨200, "ok"⟩)) .reqFailed =
      (some ⟨200, "ok"⟩, [attemptPOSTjson, attemptGET]) :=
  (c5_attempt_cascade _ _ _).2.1 _ (by decide) (by decide)

/-! ## Claim C6 — transport status versus application-level code -/

/-- C6 counterexample: the monitor's `get_devices` returns a transport-OK
response whose application-level `code` is 500 as a success, without
consulting the embedded code. -/
theorem c6_transport_counterexample :
    get_devices (.resp 200 (some ⟨500, "quota exceeded"⟩)) .reqFailed .reqFailed =
      (some ⟨500, "quota exceeded"⟩, [attemptPOSTjson]) ∧
    (500 : Int) ≠ 200 :=
  ⟨by decide, by decide⟩

/-- C6 (amended): the simple client's `_make_request` succeeds only when
the transport status is 200 AND the embedded `code` is 200, and on a
transport-OK/app-error response returns failure with the embedded message
surfaced; the monitor's `get_devices`, in contrast, treats any HTTP-200
parsed body as success without checking the application-level code. -/
theorem c6_app_code_check (status : Nat) (parsed : Option SimpleResp) :
    ((simple_make_request status parsed).1.isSome →
      status = 200 ∧ parsed.map (·.code) = some 200) ∧
    (∀ r, parsed = some r → r.code ≠ 200 →
      simple_make_request 200 parsed = (none, some r.msg)) ∧
    (∀ (b : ApiResp) (r2 r3 : HttpResult),
      (get_devices (.resp 200 (some b)) r2 r3).1 = some b) := by
  refine ⟨?_, ?_, ?_⟩
  · intro h
    by_cases hs : status = 200
    · subst hs
      match parsed with
      | none => simp [simple_make_request] at h
      | some r =>
        by_cases hc : r.code = 200
        · exact ⟨rfl, by simp [hc]⟩
        · simp [simple_make_request, hc] at h
    · simp [simple_make_request, hs] at h
  · intro r hr hc
    subst hr
    simp [simple_make_request, hc]
  · intro b r2 r3
    simp [get_devices, handle_attempt]

/-- Closed witness for C6 (amended): an app-level error with transport 200
yields failure plus the embedded message in the simple client, while the
monitor client passes the same envelope through as success. -/
theorem c6_app_code_check_witness :
    simple_make_request 200 (some ⟨500, "oops", some "d"⟩) = (none, some "oops") ∧
    (get_devices (.resp 200 (some ⟨500, "oops2"⟩)) .reqFailed .reqFailed).1 =
      some ⟨500, "oops2"⟩ :=
  ⟨(c6_app_code_check 200 (some ⟨500, "oops", some "d"⟩)).2.1 _ rfl (by decide),
   (c6_app_code_check 200 none).2.2 _ _ _⟩

/-! ## Claim C8 — statistics counters -/

theorem run_ticks_total_checks (s : Stats) (ticks : List (Nat × String)) :
    (run_ticks s ticks).total_checks = s.total_checks + ticks.length := by
  induction ticks generalizing s with
  | nil => simp [run_ticks]
  | cons t ts ih =>
    show (run_ticks (tick_update s t.1 t.2) ts).total_checks = _
    rw [ih]
    simp [tick_update]
    omega

theorem run_ticks_total_restarts (s : Stats) (ticks : List (Nat × String)) :
    (run_ticks s ticks).total_restarts =
      s.total_restarts + (ticks.map (·.1)).sum := by
  induction ticks generalizing s with
  | nil => simp [run_ticks]
  | cons t ts ih =>
    show (run_ticks (tick_update s t.1 t.2) ts).total_restarts = _
    rw [ih]
    simp [tick_update]
    omega

/-- C8 counterexample: after one tick with one successful restart the
persisted object carries `total_restarts = 1` but contains no per-device
restart map at all, so the sum over per-device counts is 0. -/
theorem c8_perdevice_counterexample :
    (tick_update (fresh_stats "t0") 1 "t1").total_restarts = 1 ∧
    perDeviceRestartSum (save_stats_obj (tick_update (fresh_stats "t0") 1 "t1")) = 0 ∧
    (1 : Nat) ≠ 0 :=
  ⟨rfl, by decide, by decide⟩

/-- C8 (amended): across any run of ticks, `total_checks` and
`total_restarts` are monotonically non-decreasing and advance by exactly
the tick count and the restarts performed; the persisted record keeps only
the global counters — it has no per-device restart map, so every
map-valued per-device sum over it is zero. -/
theorem c8_counters_monotone (s : Stats) (ticks : List (Nat × String)) :
    (run_ticks s ticks).total_checks = s.total_checks + ticks.length ∧
    (run_ticks s ticks).total_restarts =
      s.total_restarts + (ticks.map (·.1)).sum ∧
    s.total_checks ≤ (run_ticks s ticks).total_checks ∧
    s.total_restarts ≤ (run_ticks s ticks).total_restarts ∧
    (∀ st : Stats, perDeviceRestartSum (save_stats_obj st) = 0) := by
  refine ⟨run_ticks_total_checks s ticks, run_ticks_total_restarts s ticks, ?_, ?_, ?_⟩
  · rw [run_ticks_total_checks]
    exact Nat.le_add_right _ _
  · rw [run_ticks_total_restarts]
    exact Nat.le_add_right _ _
  · intro st
    cases hl : st.last_check <;> simp [perDeviceRestartSum, save_stats_obj, hl]

/-! ## Claim C9 — stats-file save semantics -/

theorem empty_string_append (s : String) : "" ++ s = s := by
  cases s
  rfl

/-- C9 counterexample: `save_stats` truncates the stats file in place; a
crash right after the truncation leaves an empty file — neither the old
snapshot nor the new one — and the performed operations contain no
rename. -/
theorem c9_inplace_counterexample :
    runOps fsOld ((save_stats_ops "new-snapshot").take 1) statsFilePath = some "" ∧
    some "" ≠ fsOld statsFilePath ∧
    ("" : String) ≠ "new-snapshot" ∧
    (save_stats_ops "new-snapshot").filter isRenameOp = [] :=
  ⟨by decide, by decide, by decide, by decide⟩

/-- C9 (amended): `save_stats` opens the stats file for writing in place
(truncate, write, close) with no temporary file and no rename; a full run
leaves the new snapshot, but a crash after the truncation leaves an empty
file, losing the previous snapshot. -/
theorem c9_save_semantics (content : String) (fs : String → Option String) :
    (save_stats_ops content).filter isRenameOp = [] ∧
    runOps fs (save_stats_ops content) statsFilePath = some content ∧
    runOps fs ((save_stats_ops content).take 1) statsFilePath = some "" := by
  refine ⟨by simp [save_stats_ops, isRenameOp], ?_, ?_⟩
  · simp [runOps, save_stats_ops, applyOp, empty_string_append]
  · simp [runOps, save_stats_ops, applyOp]

end VSPhone
